import Mathlib

/-!
# Verification of the wgpu-demo1 clear-color application

Shallow embedding of `src/lib.rs` and `src/state.rs` (the two files define the
same `State`, `ColorInfo` and `App` logic; `state.rs` merely makes some items
`pub`).  `f64` channel values, cursor coordinates and elapsed times are embedded
as rationals (`ℚ`); `u32` dimensions as `Nat`; GPU handles (`wgpu::Surface`,
`wgpu::Device`, `wgpu::Queue`) as opaque `Nat` identifiers.  Wall-clock reads
(`Instant::now()`, `Instant::elapsed()`) are threaded as explicit parameters.
Rust panics (`.unwrap()` on an `Err`/empty value) are embedded as `Option.none`.
-/

namespace WgpuDemo

/-- `wgpu::Color`: RGBA with `f64` channels, embedded over `ℚ`.
`Color::default()` (derived) is all zeros. -/
structure Color where
  r : ℚ
  g : ℚ
  b : ℚ
  a : ℚ
  deriving DecidableEq, Repr

/-- The derived `Default` for `wgpu::Color`: all fields zero. -/
def Color.default : Color := ⟨0, 0, 0, 0⟩

/-- `ColorInfo` from lib.rs:25-29 / state.rs:20-24: the clear color plus the
blue-oscillation direction flag (`true` = the add branch of `cycle_blue`). -/
structure ColorInfo where
  color : Color
  blue_direction : Bool
  deriving DecidableEq, Repr

/-- The derived `Default` for `ColorInfo`: default color (black, alpha 0) and
`bool::default()`, which is `false`. -/
def ColorInfo.default : ColorInfo := ⟨Color.default, false⟩

/-- `winit::dpi::PhysicalSize<u32>`. -/
structure PhysicalSize where
  width : Nat
  height : Nat
  deriving DecidableEq, Repr

/-- `winit::event::ElementState`. -/
inductive ElementState
  | Pressed
  | Released
  deriving DecidableEq, Repr

/-- `ElementState::is_pressed`. -/
def ElementState.is_pressed : ElementState → Bool
  | .Pressed => true
  | .Released => false

/-- `winit::event::MouseButton` (buttons beyond the ones the code names are
collapsed into `Other`). -/
inductive MouseButton
  | Left
  | Right
  | Middle
  | Other (n : Nat)
  deriving DecidableEq, Repr

/-- `winit::keyboard::PhysicalKey` restricted to what the code matches on:
`KeyCode::Escape`, `KeyCode::KeyQ`, and everything else (other key codes and
unidentified keys) collapsed into `Other`. -/
inductive KeyCode
  | Escape
  | KeyQ
  | Other (n : Nat)
  deriving DecidableEq, Repr

/-- `winit::event::WindowEvent`, restricted to the arms the code distinguishes;
every other event kind is collapsed into `Other` (they all reach the `_ => {}`
arms of `State::input` and `App::window_event`). -/
inductive WindowEvent
  | CloseRequested
  | CursorMoved (x y : ℚ)
  | MouseInput (button : MouseButton) (state : ElementState)
  | KeyboardInput (physical_key : KeyCode) (state : ElementState) (is_synthetic : Bool)
  | Resized (new_size : PhysicalSize)
  | RedrawRequested
  | Other
  deriving DecidableEq, Repr

/-- `wgpu::TextureUsages`, restricted to the one value the code uses. -/
inductive TextureUsages
  | RENDER_ATTACHMENT
  deriving DecidableEq, Repr

/-- `wgpu::PresentMode`, restricted to the values named in the code
(`Mailbox` is chosen; `Fifo` appears only commented out). -/
inductive PresentMode
  | Fifo
  | Mailbox
  deriving DecidableEq, Repr

/-- A surface texture format: an opaque identifier plus its
`TextureFormat::is_srgb()` flag, which is all the code inspects. -/
structure TextureFormat where
  id : Nat
  is_srgb : Bool
  deriving DecidableEq, Repr

/-- `wgpu::SurfaceConfiguration` with exactly the fields the code sets
(lib.rs:78-88); alpha modes are opaque `Nat` identifiers. -/
structure SurfaceConfiguration where
  usage : TextureUsages
  format : TextureFormat
  width : Nat
  height : Nat
  present_mode : PresentMode
  alpha_mode : Nat
  view_formats : List TextureFormat
  desired_maximum_frame_latency : Nat
  deriving DecidableEq, Repr

/-- `wgpu::SurfaceError`, the error type of `surface.get_current_texture()`. -/
inductive SurfaceError
  | Timeout
  | Outdated
  | Lost
  | OutOfMemory
  deriving DecidableEq, Repr

/-- The `State` struct (lib.rs:14-23 / state.rs:9-18).  `surface`, `device`
and `queue` are opaque handles; `micros : ℚ` is the `Instant` timestamp (in
seconds) recorded by `State::update`. -/
structure State where
  surface : Nat
  device : Nat
  queue : Nat
  config : SurfaceConfiguration
  size : PhysicalSize
  mouse_down : Bool
  micros : ℚ
  color_info : ColorInfo
  deriving DecidableEq, Repr

/-- The surface-format choice in `State::new` (lib.rs:72-77):
`formats.iter().find(|f| f.is_srgb()).copied().unwrap_or(formats[0])`.
Rust's `unwrap_or` evaluates its argument eagerly, so `formats[0]` is indexed
(and panics on an empty list, embedded as `none`) before the `find` result is
consulted. -/
def surface_format_of (formats : List TextureFormat) : Option TextureFormat :=
  match formats[0]? with
  | none => none
  | some f0 => some ((formats.find? (fun f => f.is_srgb)).getD f0)

/-- `State::new` (lib.rs:32-100), restricted to its observable result: the
constructed `State`.  The externally supplied data are the window's inner
`size`, the surface capabilities (`formats`, `alpha_modes`), the current time
`now`, and the acquired GPU handles.  `none` embeds the panics on an empty
capability list; the adapter/device request panics are outside this model
(those `unwrap`s are fatal by design, spec sections 4.1 and 7). -/
def State.new (size : PhysicalSize) (formats : List TextureFormat)
    (alpha_modes : List Nat) (now : ℚ) (surface device queue : Nat) :
    Option State :=
  match surface_format_of formats, alpha_modes[0]? with
  | some surface_format, some alpha0 =>
    some { surface := surface
           device := device
           queue := queue
           config := { usage := .RENDER_ATTACHMENT
                       format := surface_format
                       width := size.width
                       height := size.height
                       present_mode := .Mailbox
                       alpha_mode := alpha0
                       view_formats := []
                       desired_maximum_frame_latency := 2 }
           size := size
           mouse_down := false
           micros := now
           color_info := ColorInfo.default }
  | _, _ => none

/-- `State::resize` (lib.rs:102-109).  The second component records the
configurations passed to `surface.configure(&device, &config)`, in order, so
side effects on the surface are observable in the model. -/
def State.resize (s : State) (new_size : PhysicalSize) :
    State × List SurfaceConfiguration :=
  if 0 < new_size.width ∧ 0 < new_size.height then
    let s' := { s with
                size := new_size
                config := { s.config with
                            width := new_size.width
                            height := new_size.height } }
    (s', [s'.config])
  else
    (s, [])

/-- `State::render` (lib.rs:111-144).  `acquire` is the outcome of
`surface.get_current_texture()`, supplied by the environment.  The code calls
`.unwrap()` on it, so an acquisition error is a panic (`none`); on success the
clear pass is recorded with `self.color_info.color` and the function returns
`Ok(())` — `some (.ok c)` reports the color the frame was cleared to. -/
def State.render (s : State) (acquire : Except SurfaceError Nat) :
    Option (Except SurfaceError Color) :=
  match acquire with
  | .error _ => none
  | .ok _ => some (.ok s.color_info.color)

/-- `State::update` (lib.rs:146-148): records the current time. -/
def State.update (s : State) (now : ℚ) : State :=
  { s with micros := now }

/-- `State::cycle_blue` (lib.rs:187-205).  `delta_time` is
`self.micros.elapsed()` in seconds, supplied by the environment. -/
def State.cycle_blue (s : State) (delta_time : ℚ) : State :=
  let delta := delta_time * (1 / 2)
  let b := if s.color_info.blue_direction then s.color_info.color.b + delta
           else s.color_info.color.b - delta
  let dir := if 1 ≤ b then false
             else if b ≤ 0 then true
             else s.color_info.blue_direction
  { s with color_info := { color := { s.color_info.color with b := b }
                           blue_direction := dir } }

/-- `State::input` (lib.rs:150-185).  Returns the updated state and the `bool`
the handler returns (the needs-redraw flag).  `elapsed` is the wall-clock time,
in seconds, since `micros`, used by `cycle_blue` when it is reached.  Note the
control flow of the source: the `CursorMoved` arm ends in `return true` and
never reaches the `mouse_down` check; the `MouseInput` arm ends in the value
statement `true;` (which is discarded) and falls through to it; so does the
`_ => {}` arm. -/
def State.input (s : State) (event : WindowEvent) (elapsed : ℚ) :
    State × Bool :=
  match event with
  | .CursorMoved x y =>
    let b := s.color_info.color.b
    let c : Color := { r := x / (s.size.width : ℚ)
                       g := y / (s.size.height : ℚ)
                       b := b
                       a := 1 }
    ({ s with color_info := { s.color_info with color := c } }, true)
  | .MouseInput .Left st =>
    let s := if st.is_pressed then { s with mouse_down := true }
             else { s with mouse_down := false }
    if s.mouse_down then (s.cycle_blue elapsed, true) else (s, false)
  | _ =>
    if s.mouse_down then (s.cycle_blue elapsed, true) else (s, false)

/-- The `App` state (lib.rs:208-214) after `resumed` has run, restricted to the
fields the verified claims observe: the inner `State`, whether
`event_loop.exit()` has been called, and how many times `window.request_redraw()`
has been called.  The FPS-logging fields (`frame_count`, `fps_timer`) only feed
`log::info!` output and are omitted. -/
structure App where
  state : State
  exited : Bool
  redraw_requests : Nat
  deriving DecidableEq, Repr

/-- The quit pattern of `App::window_event` (lib.rs:245-256): `CloseRequested`,
or a non-synthetic `KeyboardInput` whose physical key is `Escape` or `KeyQ` in
the `Pressed` state. -/
def is_quit_event : WindowEvent → Bool
  | .CloseRequested => true
  | .KeyboardInput .Escape .Pressed false => true
  | .KeyboardInput .KeyQ .Pressed false => true
  | _ => false

/-- `App::window_event` (lib.rs:230-296) for the single window the app creates
(so `window_id == window.id()` holds).  First `state.input` runs and, if it
returns `true`, a redraw is requested; then the event is matched: a quit event
calls `event_loop.exit()`; `Resized` calls `state.resize`; `RedrawRequested`
requests the next redraw and records the update tick via `state.update` (`now`
is the wall clock).  The render call of the `RedrawRequested` arm only reads
the state on its success path (its acquisition-failure behavior is modelled by
`State.render`), and the FPS bookkeeping only logs, so neither changes the
modelled fields. -/
def App.window_event (a : App) (event : WindowEvent) (elapsed now : ℚ) : App :=
  let p := a.state.input event elapsed
  let a1 : App := { a with
                    state := p.1
                    redraw_requests := a.redraw_requests +
                      (if p.2 then 1 else 0) }
  if is_quit_event event then
    { a1 with exited := true }
  else
    match event with
    | .Resized physical_size =>
      { a1 with state := (a1.state.resize physical_size).1 }
    | .RedrawRequested =>
      { a1 with redraw_requests := a1.redraw_requests + 1
                state := a1.state.update now }
    | _ => a1

/-- The winit event loop around `App::window_event`: events are delivered in
order, each with the wall-clock data (`elapsed` since the last update tick,
and the current time `now`); after `event_loop.exit()` has been called the
loop returns from `run_app` and delivers nothing further. -/
def run_events (a : App) (evs : List (WindowEvent × ℚ × ℚ)) : App :=
  match evs with
  | [] => a
  | (ev, elapsed, now) :: rest =>
    if a.exited then a
    else run_events (a.window_event ev elapsed now) rest

/-! ## Concrete states used by witnesses and counterexamples -/

/-- A concrete `State` as produced by `State.new` for an 800×600 window with a
single sRGB surface format, used to instantiate the universally quantified
theorems below. -/
def sample_state : State :=
  { surface := 0
    device := 0
    queue := 0
    config := { usage := .RENDER_ATTACHMENT
                format := ⟨0, true⟩
                width := 800
                height := 600
                present_mode := .Mailbox
                alpha_mode := 0
                view_formats := []
                desired_maximum_frame_latency := 2 }
    size := ⟨800, 600⟩
    mouse_down := false
    micros := 0
    color_info := ColorInfo.default }

/-- `sample_state` with the left mouse button held down. -/
def held_state : State := { sample_state with mouse_down := true }

/-! ## Claims -/

/-- C2: after the `CursorMoved` arm of `State::input` at window-local position
(x, y), the color satisfies `r = x / width` and `g = y / height` (no clamping,
so values outside the window may leave [0,1]), `a = 1`, `b` is unchanged from
its pre-call value, and the handler returns `true` (redraw needed). -/
theorem c2_cursor_moved_sets_color (s : State) (x y elapsed : ℚ)
    (hw : 0 < s.size.width) (hh : 0 < s.size.height) :
    (s.input (.CursorMoved x y) elapsed).1.color_info.color.r
      = x / (s.size.width : ℚ) ∧
    (s.input (.CursorMoved x y) elapsed).1.color_info.color.g
      = y / (s.size.height : ℚ) ∧
    (s.input (.CursorMoved x y) elapsed).1.color_info.color.a = 1 ∧
    (s.input (.CursorMoved x y) elapsed).1.color_info.color.b
      = s.color_info.color.b ∧
    (s.input (.CursorMoved x y) elapsed).2 = true := by
  simp [State.input]

/-- Witness for C2 at `sample_state` (800×600) and cursor position (400, 300):
the color becomes (1/2, 1/2, b, 1). -/
theorem c2_witness :
    (0 < sample_state.size.width) ∧ (0 < sample_state.size.height) ∧
    ((sample_state.input (.CursorMoved 400 300) 0).1.color_info.color.r
       = 400 / (sample_state.size.width : ℚ) ∧
     (sample_state.input (.CursorMoved 400 300) 0).1.color_info.color.g
       = 300 / (sample_state.size.height : ℚ) ∧
     (sample_state.input (.CursorMoved 400 300) 0).1.color_info.color.a = 1 ∧
     (sample_state.input (.CursorMoved 400 300) 0).1.color_info.color.b
       = sample_state.color_info.color.b ∧
     (sample_state.input (.CursorMoved 400 300) 0).2 = true) :=
  ⟨by decide, by decide,
   c2_cursor_moved_sets_color sample_state 400 300 0 (by decide) (by decide)⟩

/-- C3: one call to `State::cycle_blue` with elapsed time t ≥ 0 first computes
delta = t * 0.5 and adds it to blue if the direction flag is set (increasing),
subtracts it otherwise; the stored blue is exactly that sum — never clamped —
and only afterwards is the bound check applied to the new value: if it is ≥ 1
the direction becomes decreasing, else if it is ≤ 0 it becomes increasing,
else it is unchanged. -/
theorem c3_cycle_blue_bounce (s : State) (t : ℚ) (ht : 0 ≤ t) :
    (s.cycle_blue t).color_info.color.b
      = (if s.color_info.blue_direction
         then s.color_info.color.b + t * (1 / 2)
         else s.color_info.color.b - t * (1 / 2)) ∧
    (1 ≤ (s.cycle_blue t).color_info.color.b →
      (s.cycle_blue t).color_info.blue_direction = false) ∧
    ((s.cycle_blue t).color_info.color.b < 1 →
     (s.cycle_blue t).color_info.color.b ≤ 0 →
      (s.cycle_blue t).color_info.blue_direction = true) ∧
    (0 < (s.cycle_blue t).color_info.color.b →
     (s.cycle_blue t).color_info.color.b < 1 →
      (s.cycle_blue t).color_info.blue_direction
        = s.color_info.blue_direction) := by
  unfold State.cycle_blue
  refine ⟨rfl, ?_, ?_, ?_⟩ <;> intros <;> split_ifs <;> simp_all

/-- Witness for C3, the spec's own scenario: blue = 0.95 = 19/20, direction
increasing, delta_seconds = 0.2 (so delta = 0.1): new blue = 1.05 = 21/20
(overshoot preserved) and the direction flips to decreasing. -/
theorem c3_witness :
    (0 ≤ (1 / 5 : ℚ)) ∧
    (let s := { sample_state with
                color_info := { color := { r := 0, g := 0, b := 19 / 20, a := 1 }
                                blue_direction := true } }
     (s.cycle_blue (1 / 5)).color_info.color.b = 21 / 20 ∧
     (s.cycle_blue (1 / 5)).color_info.blue_direction = false) := by
  constructor
  · norm_num
  · have h := c3_cycle_blue_bounce
      { sample_state with
        color_info := { color := { r := 0, g := 0, b := 19 / 20, a := 1 }
                        blue_direction := true } }
      (1 / 5) (by norm_num)
    refine ⟨?_, ?_⟩
    · rw [h.1]; norm_num
    · exact h.2.1 (by rw [h.1]; norm_num)

/-- C6: `State::resize` with a size whose width or height is zero is a no-op:
the state (stored size and the whole `SurfaceConfiguration`) is untouched and
no configuration is passed to `surface.configure`. -/
theorem c6_resize_zero_noop (s : State) (new_size : PhysicalSize)
    (h : new_size.width = 0 ∨ new_size.height = 0) :
    s.resize new_size = (s, []) := by
  rcases h with h | h <;> simp [State.resize, h]

/-- Witness for C6: resizing `sample_state` to 0×600 and to 800×0 changes
nothing and performs no reconfiguration. -/
theorem c6_witness :
    ((⟨0, 600⟩ : PhysicalSize).width = 0 ∨ (⟨0, 600⟩ : PhysicalSize).height = 0) ∧
    sample_state.resize ⟨0, 600⟩ = (sample_state, []) :=
  ⟨Or.inl rfl, c6_resize_zero_noop sample_state ⟨0, 600⟩ (Or.inl rfl)⟩

/-- C7: `State::resize` is idempotent on any nonzero size: after the first
call sets the stored size and config dimensions, a second call with the same
size leaves the state exactly as the first call left it, and the one
configuration it passes to `surface.configure` is identical to the one the
first call passed (a no-op reconfiguration). -/
theorem c7_resize_idempotent (s : State) (new_size : PhysicalSize)
    (hw : 0 < new_size.width) (hh : 0 < new_size.height) :
    ((s.resize new_size).1.resize new_size).1 = (s.resize new_size).1 ∧
    ((s.resize new_size).1.resize new_size).2 = (s.resize new_size).2 ∧
    (s.resize new_size).1.size = new_size ∧
    (s.resize new_size).1.config.width = new_size.width ∧
    (s.resize new_size).1.config.height = new_size.height := by
  simp [State.resize, hw, hh]

/-- Witness for C7 at `sample_state` with size 1024×768. -/
theorem c7_witness :
    (0 < (⟨1024, 768⟩ : PhysicalSize).width) ∧
    (0 < (⟨1024, 768⟩ : PhysicalSize).height) ∧
    (((sample_state.resize ⟨1024, 768⟩).1.resize ⟨1024, 768⟩).1
       = (sample_state.resize ⟨1024, 768⟩).1 ∧
     ((sample_state.resize ⟨1024, 768⟩).1.resize ⟨1024, 768⟩).2
       = (sample_state.resize ⟨1024, 768⟩).2 ∧
     (sample_state.resize ⟨1024, 768⟩).1.size = ⟨1024, 768⟩ ∧
     (sample_state.resize ⟨1024, 768⟩).1.config.width = 1024 ∧
     (sample_state.resize ⟨1024, 768⟩).1.config.height = 768) :=
  ⟨by decide, by decide,
   c7_resize_idempotent sample_state ⟨1024, 768⟩ (by decide) (by decide)⟩

/-- C10: for a nonzero new size, `State::resize` changes only the stored size
and the configuration's width and height; every other configuration field
(usage, format, present_mode, alpha_mode, view_formats,
desired_maximum_frame_latency) and every other `State` field (handles,
mouse_down, timer, color state) is unchanged. -/
theorem c10_resize_frame_condition (s : State) (new_size : PhysicalSize)
    (hw : 0 < new_size.width) (hh : 0 < new_size.height) :
    (s.resize new_size).1.size = new_size ∧
    (s.resize new_size).1.config.width = new_size.width ∧
    (s.resize new_size).1.config.height = new_size.height ∧
    (s.resize new_size).1.config.usage = s.config.usage ∧
    (s.resize new_size).1.config.format = s.config.format ∧
    (s.resize new_size).1.config.present_mode = s.config.present_mode ∧
    (s.resize new_size).1.config.alpha_mode = s.config.alpha_mode ∧
    (s.resize new_size).1.config.view_formats = s.config.view_formats ∧
    (s.resize new_size).1.config.desired_maximum_frame_latency
      = s.config.desired_maximum_frame_latency ∧
    (s.resize new_size).1.surface = s.surface ∧
    (s.resize new_size).1.device = s.device ∧
    (s.resize new_size).1.queue = s.queue ∧
    (s.resize new_size).1.mouse_down = s.mouse_down ∧
    (s.resize new_size).1.micros = s.micros ∧
    (s.resize new_size).1.color_info = s.color_info := by
  simp [State.resize, hw, hh]

/-- Witness for C10 at `held_state` with size 640×480. -/
theorem c10_witness :
    (0 < (⟨640, 480⟩ : PhysicalSize).width) ∧
    (0 < (⟨640, 480⟩ : PhysicalSize).height) ∧
    ((held_state.resize ⟨640, 480⟩).1.size = ⟨640, 480⟩ ∧
     (held_state.resize ⟨640, 480⟩).1.config.width = 640 ∧
     (held_state.resize ⟨640, 480⟩).1.config.height = 480 ∧
     (held_state.resize ⟨640, 480⟩).1.config.usage = held_state.config.usage ∧
     (held_state.resize ⟨640, 480⟩).1.config.format = held_state.config.format ∧
     (held_state.resize ⟨640, 480⟩).1.config.present_mode
       = held_state.config.present_mode ∧
     (held_state.resize ⟨640, 480⟩).1.config.alpha_mode
       = held_state.config.alpha_mode ∧
     (held_state.resize ⟨640, 480⟩).1.config.view_formats
       = held_state.config.view_formats ∧
     (held_state.resize ⟨640, 480⟩).1.config.desired_maximum_frame_latency
       = held_state.config.desired_maximum_frame_latency ∧
     (held_state.resize ⟨640, 480⟩).1.surface = held_state.surface ∧
     (held_state.resize ⟨640, 480⟩).1.device = held_state.device ∧
     (held_state.resize ⟨640, 480⟩).1.queue = held_state.queue ∧
     (held_state.resize ⟨640, 480⟩).1.mouse_down = held_state.mouse_down ∧
     (held_state.resize ⟨640, 480⟩).1.micros = held_state.micros ∧
     (held_state.resize ⟨640, 480⟩).1.color_info = held_state.color_info) :=
  ⟨by decide, by decide,
   c10_resize_frame_condition held_state ⟨640, 480⟩ (by decide) (by decide)⟩

/-- C1 (documenting the code bug): `State::render` calls `.unwrap()` on
`surface.get_current_texture()` (lib.rs:112), so every acquisition failure —
`Lost`, `OutOfMemory`, `Outdated`, `Timeout` alike — panics (`none`) instead
of returning the error; only on successful acquisition does it return `Ok`
after recording the clear with the current color.  Consequently the recovery
arms `Err(SurfaceError::…)` in `App::window_event` (lib.rs:277-291) are
unreachable. -/
theorem c1_render_unwraps_acquisition (s : State) (e : SurfaceError) :
    s.render (Except.error e) = none ∧
    s.render (Except.ok 0) = some (Except.ok s.color_info.color) :=
  ⟨rfl, rfl⟩

/-- C4 counterexample: in `held_state` the left button is held
(`mouse_down = true`), yet a `CursorMoved` event leaves blue exactly as it was
(the `CursorMoved` arm ends in `return true`, skipping the `mouse_down` check),
even though `cycle_blue` at this state and elapsed time would have changed
blue.  So `cycle_blue` is not called on every input event while the button is
held. -/
theorem c4_counterexample :
    held_state.mouse_down = true ∧
    (held_state.input (.CursorMoved 0 0) 1).1.color_info.color.b
      = held_state.color_info.color.b ∧
    (held_state.cycle_blue 1).color_info.color.b
      ≠ held_state.color_info.color.b := by
  refine ⟨rfl, rfl, ?_⟩
  norm_num [State.cycle_blue, held_state, sample_state, ColorInfo.default,
            Color.default]

/-- C4 amended: after its specific handling, any input event *other than a
cursor move* with `mouse_down = true` results in `cycle_blue` being applied and
the handler returning `true`: this covers all non-mouse, non-cursor events
(which leave `mouse_down` untouched) and a left-button press (which sets
`mouse_down = true` first).  A cursor-move event instead returns `true` early,
leaving blue unchanged — it never reaches the `mouse_down` check. -/
theorem c4_amended_blue_advances_while_held (s : State) (t x y : ℚ)
    (ev : WindowEvent) (hmd : s.mouse_down = true)
    (hev : ev = .CloseRequested ∨ ev = .RedrawRequested ∨ ev = .Other ∨
           (∃ k es syn, ev = .KeyboardInput k es syn) ∨
           (∃ sz, ev = .Resized sz) ∨
           (∃ b es, ev = .MouseInput b es ∧ b ≠ .Left)) :
    s.input ev t = (s.cycle_blue t, true) ∧
    s.input (.MouseInput .Left .Pressed) t
      = (({ s with mouse_down := true } : State).cycle_blue t, true) ∧
    (s.input (.CursorMoved x y) t).1.color_info.color.b
      = s.color_info.color.b ∧
    (s.input (.CursorMoved x y) t).2 = true := by
  refine ⟨?_, ?_, ?_, ?_⟩
  · rcases hev with h | h | h | ⟨k, es, syn, h⟩ | ⟨sz, h⟩ | ⟨b, es, h, hb⟩ <;>
      subst h <;> try simp [State.input, hmd]
    cases b <;> simp_all [State.input]
  · simp [State.input, ElementState.is_pressed]
  · simp [State.input]
  · simp [State.input]

/-- Witness for C4's amended theorem at `held_state`, a `RedrawRequested`
input event, elapsed time 1, and cursor position (0, 0). -/
theorem c4_witness :
    held_state.mouse_down = true ∧
    (held_state.input .RedrawRequested 1 = (held_state.cycle_blue 1, true) ∧
     held_state.input (.MouseInput .Left .Pressed) 1
       = (({ held_state with mouse_down := true } : State).cycle_blue 1, true) ∧
     (held_state.input (.CursorMoved 0 0) 1).1.color_info.color.b
       = held_state.color_info.color.b ∧
     (held_state.input (.CursorMoved 0 0) 1).2 = true) :=
  ⟨rfl,
   c4_amended_blue_advances_while_held held_state 1 0 0 .RedrawRequested rfl
     (Or.inr (Or.inl rfl))⟩

/-- C5 counterexample: `ColorInfo` derives `Default`, so the fresh state's
`blue_direction` is `false` — the branch of `cycle_blue` that *subtracts* —
and the first blue-advance on the freshly created state (here with elapsed
time 0.2 s, so delta = 0.1) yields blue = −0.1, not +0.1: it subtracts rather
than adds. -/
theorem c5_counterexample :
    ColorInfo.default.blue_direction = false ∧
    (sample_state.cycle_blue (1 / 5)).color_info.color.b = -(1 / 10) := by
  constructor
  · rfl
  · norm_num [State.cycle_blue, sample_state, ColorInfo.default, Color.default]

/-- C5 amended: a state built by `State::new` has the default color state —
black with alpha 0 (`wgpu::Color::default()`) — and `blue_direction = false`
(the `bool` default), which `cycle_blue` reads as decreasing; hence the first
blue-advance on the fresh state *subtracts* delta, giving blue = −t/2 ≤ 0,
which immediately flips the direction to increasing. -/
theorem c5_amended_initial_color_state (size : PhysicalSize)
    (formats : List TextureFormat) (alpha_modes : List Nat) (now t : ℚ)
    (su de qu : Nat) (st : State) (ht : 0 ≤ t)
    (hnew : State.new size formats alpha_modes now su de qu = some st) :
    st.color_info.color = Color.default ∧
    st.color_info.blue_direction = false ∧
    (st.cycle_blue t).color_info.color.b = -(t * (1 / 2)) ∧
    (st.cycle_blue t).color_info.blue_direction = true := by
  have hci : st.color_info = ColorInfo.default := by
    unfold State.new at hnew
    cases hsf : surface_format_of formats <;> rw [hsf] at hnew
    · exact absurd hnew (by simp)
    · cases ha : alpha_modes[0]? <;> rw [ha] at hnew
      · exact absurd hnew (by simp)
      · simp only [Option.some.injEq] at hnew
        subst hnew
        rfl
  refine ⟨hci ▸ rfl, hci ▸ rfl, ?_, ?_⟩
  · unfold State.cycle_blue
    simp [hci, ColorInfo.default, Color.default]
  · unfold State.cycle_blue
    simp [hci, ColorInfo.default, Color.default]
    constructor <;> linarith

/-- The state `State.new` builds for an 800×600 window with one sRGB format,
one alpha mode `0`, creation time 0 and handles 1, 2, 3. -/
def c5_state : State :=
  { surface := 1
    device := 2
    queue := 3
    config := { usage := .RENDER_ATTACHMENT
                format := ⟨0, true⟩
                width := 800
                height := 600
                present_mode := .Mailbox
                alpha_mode := 0
                view_formats := []
                desired_maximum_frame_latency := 2 }
    size := ⟨800, 600⟩
    mouse_down := false
    micros := 0
    color_info := ColorInfo.default }

/-- Witness for C5's amended theorem: `State.new` on concrete inputs yields
`c5_state`, whose first blue-advance with t = 0.2 subtracts. -/
theorem c5_witness :
    (0 ≤ (1 / 5 : ℚ)) ∧
    State.new ⟨800, 600⟩ [⟨0, true⟩] [0] 0 1 2 3 = some c5_state ∧
    (c5_state.color_info.color = Color.default ∧
     c5_state.color_info.blue_direction = false ∧
     (c5_state.cycle_blue (1 / 5)).color_info.color.b = -((1 / 5) * (1 / 2)) ∧
     (c5_state.cycle_blue (1 / 5)).color_info.blue_direction = true) :=
  ⟨by norm_num, by decide,
   c5_amended_initial_color_state ⟨800, 600⟩ [⟨0, true⟩] [0] 0 (1 / 5) 1 2 3
     c5_state (by norm_num) (by decide)⟩

/-- A concrete `App` (after `resumed`) wrapping `sample_state`. -/
def sample_app : App :=
  { state := sample_state
    exited := false
    redraw_requests := 0 }

/-- C8: a close request, or an Escape/Q key press that is non-synthetic and in
the `Pressed` state, makes `App::window_event` call `event_loop.exit()`; once
exited, the loop delivers no further events, so no further redraw is scheduled
(the app state, `redraw_requests` included, is final).  A key release or a
synthetic key event never matches the quit pattern, and a non-quit event
leaves the exited flag as it was. -/
theorem c8_quit_terminates_loop (a a2 : App) (ev ev2 : WindowEvent)
    (elapsed now e2 n2 : ℚ) (evs : List (WindowEvent × ℚ × ℚ))
    (key : KeyCode) (syn : Bool) (ks : ElementState)
    (hq : is_quit_event ev = true) (hnq : is_quit_event ev2 = false) :
    (a.window_event ev elapsed now).exited = true ∧
    run_events (a.window_event ev elapsed now) evs
      = a.window_event ev elapsed now ∧
    is_quit_event (.KeyboardInput key .Released syn) = false ∧
    is_quit_event (.KeyboardInput key ks true) = false ∧
    (a2.window_event ev2 e2 n2).exited = a2.exited := by
  have hex : (a.window_event ev elapsed now).exited = true := by
    simp [App.window_event, hq]
  refine ⟨hex, ?_, ?_, ?_, ?_⟩
  · cases evs with
    | nil => rfl
    | cons hd tl =>
      obtain ⟨ev3, e3, n3⟩ := hd
      simp [run_events, hex]
  · cases key <;> cases syn <;> rfl
  · cases key <;> cases ks <;> rfl
  · cases ev2 <;> simp [App.window_event, hnq, State.update]

/-- Witness for C8: Escape pressed (non-synthetic) on `sample_app` exits, and
a pending `RedrawRequested` after it is not processed; Escape released and the
synthetic Q press are not quit events. -/
theorem c8_witness :
    is_quit_event (.KeyboardInput .Escape .Pressed false) = true ∧
    is_quit_event (.KeyboardInput .Escape .Released false) = false ∧
    ((sample_app.window_event (.KeyboardInput .Escape .Pressed false) 0 0).exited
       = true ∧
     run_events (sample_app.window_event (.KeyboardInput .Escape .Pressed false) 0 0)
         [(.RedrawRequested, 0, 0)]
       = sample_app.window_event (.KeyboardInput .Escape .Pressed false) 0 0 ∧
     is_quit_event (.KeyboardInput .KeyQ .Released false) = false ∧
     is_quit_event (.KeyboardInput .KeyQ .Pressed true) = false ∧
     (sample_app.window_event (.KeyboardInput .Escape .Released false) 0 0).exited
       = sample_app.exited) :=
  ⟨rfl, rfl,
   c8_quit_terminates_loop sample_app sample_app
     (.KeyboardInput .Escape .Pressed false) (.KeyboardInput .Escape .Released false)
     0 0 0 0 [(.RedrawRequested, 0, 0)] .KeyQ false .Pressed rfl rfl⟩

/-- `List.find?` on a list whose first satisfying element is `f`: everything
before `f` fails the predicate, so `find?` returns `f`. -/
theorem find_first_srgb (l1 l2 : List TextureFormat) (f : TextureFormat)
    (h1 : ∀ g ∈ l1, g.is_srgb = false) (hf : f.is_srgb = true) :
    (l1 ++ f :: l2).find? (fun g => g.is_srgb) = some f := by
  induction l1 with
  | nil => simp [List.find?, hf]
  | cons a tl ih =>
    have ha : a.is_srgb = false := h1 a (List.mem_cons_self a tl)
    rw [List.cons_append, List.find?_cons_of_neg _ (by simp [ha])]
    exact ih (fun g hg => h1 g (List.mem_cons_of_mem a hg))

/-- The surface-format choice returns the first sRGB format when one exists. -/
theorem surface_format_of_first_srgb (l1 l2 : List TextureFormat)
    (f : TextureFormat) (h1 : ∀ g ∈ l1, g.is_srgb = false)
    (hf : f.is_srgb = true) :
    surface_format_of (l1 ++ f :: l2) = some f := by
  unfold surface_format_of
  cases h0 : (l1 ++ f :: l2)[0]? with
  | none => exfalso; cases l1 <;> simp at h0
  | some g => rw [find_first_srgb l1 l2 f h1 hf]; rfl

/-- The surface-format choice falls back to the first supported format when no
format is sRGB. -/
theorem surface_format_of_no_srgb (f0 : TextureFormat)
    (t0 : List TextureFormat) (h : ∀ g ∈ f0 :: t0, g.is_srgb = false) :
    surface_format_of (f0 :: t0) = some f0 := by
  unfold surface_format_of
  have hfind : (f0 :: t0).find? (fun g => g.is_srgb) = none :=
    List.find?_eq_none.mpr (fun x hx => by simp [h x hx])
  simp [hfind]

/-- C9: for any state built by `State::new`, the configured surface format is
the first sRGB entry of the supported-formats list when one exists, and the
first entry otherwise; the configuration requests render-attachment usage, the
low-latency `Mailbox` presentation mode, a desired maximum frame latency of 2,
and the window's dimensions. -/
theorem c9_initial_surface_config (size : PhysicalSize)
    (formats l1 l2 : List TextureFormat) (f f0 : TextureFormat)
    (t0 : List TextureFormat) (alpha_modes : List Nat) (now : ℚ)
    (su de qu : Nat) (st : State)
    (hnew : State.new size formats alpha_modes now su de qu = some st) :
    (formats = l1 ++ f :: l2 → (∀ g ∈ l1, g.is_srgb = false) →
      f.is_srgb = true → st.config.format = f) ∧
    (formats = f0 :: t0 → (∀ g ∈ formats, g.is_srgb = false) →
      st.config.format = f0) ∧
    st.config.usage = .RENDER_ATTACHMENT ∧
    st.config.present_mode = .Mailbox ∧
    st.config.desired_maximum_frame_latency = 2 ∧
    st.config.width = size.width ∧
    st.config.height = size.height := by
  unfold State.new at hnew
  cases hsf : surface_format_of formats <;> rw [hsf] at hnew
  · exact absurd hnew (by simp)
  case some fmt =>
    cases ha : alpha_modes[0]? <;> rw [ha] at hnew
    · exact absurd hnew (by simp)
    case some a0 =>
      simp only [Option.some.injEq] at hnew
      subst hnew
      refine ⟨?_, ?_, rfl, rfl, rfl, rfl, rfl⟩
      · intro hfe hl1 hfs
        subst hfe
        rw [surface_format_of_first_srgb l1 l2 f hl1 hfs] at hsf
        simp only [Option.some.injEq] at hsf
        exact hsf.symm
      · intro hfe hall
        subst hfe
        rw [surface_format_of_no_srgb f0 t0 hall] at hsf
        simp only [Option.some.injEq] at hsf
        exact hsf.symm

/-- The state `State.new` builds from the format list
`[{id 0, not sRGB}, {id 1, sRGB}, {id 2, sRGB}]`: the chosen format is the
first sRGB one, id 1. -/
def c9_state : State :=
  { surface := 7
    device := 8
    queue := 9
    config := { usage := .RENDER_ATTACHMENT
                format := ⟨1, true⟩
                width := 320
                height := 240
                present_mode := .Mailbox
                alpha_mode := 5
                view_formats := []
                desired_maximum_frame_latency := 2 }
    size := ⟨320, 240⟩
    mouse_down := false
    micros := 0
    color_info := ColorInfo.default }

/-- Witness for C9: with supported formats `[⟨0, false⟩, ⟨1, true⟩, ⟨2, true⟩]`
the configured format is `⟨1, true⟩`, the first sRGB entry. -/
theorem c9_witness :
    State.new ⟨320, 240⟩ [⟨0, false⟩, ⟨1, true⟩, ⟨2, true⟩] [5] 0 7 8 9
      = some c9_state ∧
    (([⟨0, false⟩, ⟨1, true⟩, ⟨2, true⟩] : List TextureFormat)
        = [⟨0, false⟩] ++ ⟨1, true⟩ :: [⟨2, true⟩] →
      (∀ g ∈ ([⟨0, false⟩] : List TextureFormat), g.is_srgb = false) →
      (⟨1, true⟩ : TextureFormat).is_srgb = true →
      c9_state.config.format = ⟨1, true⟩) ∧
    ((([⟨0, false⟩, ⟨1, true⟩, ⟨2, true⟩] : List TextureFormat)
        = ⟨0, false⟩ :: [⟨1, true⟩, ⟨2, true⟩] →
      (∀ g ∈ ([⟨0, false⟩, ⟨1, true⟩, ⟨2, true⟩] : List TextureFormat),
        g.is_srgb = false) →
      c9_state.config.format = ⟨0, false⟩) ∧
     c9_state.config.usage = .RENDER_ATTACHMENT ∧
     c9_state.config.present_mode = .Mailbox ∧
     c9_state.config.desired_maximum_frame_latency = 2 ∧
     c9_state.config.width = (⟨320, 240⟩ : PhysicalSize).width ∧
     c9_state.config.height = (⟨320, 240⟩ : PhysicalSize).height) := by
  have h := c9_initial_surface_config ⟨320, 240⟩
    [⟨0, false⟩, ⟨1, true⟩, ⟨2, true⟩] [⟨0, false⟩] [⟨2, true⟩] ⟨1, true⟩
    ⟨0, false⟩ [⟨1, true⟩, ⟨2, true⟩] [5] 0 7 8 9 c9_state (by decide)
  exact ⟨by decide, h.1, h.2⟩

end WgpuDemo
